import Mathlib

/-!
Verification of the chart-state reconciliation engine of
src/frontend/StrokeCharts.vue.

The component keeps three pieces of state: the latest fetched snapshot
(this.data), a loading flag, and a registry of chart instances keyed by
slot id (this.charts). The reconciliation core is updateChart, which
looks up the registry, consults container presence (this.$refs) only
when no instance exists, constructs a chart on a present container,
assigns dataset and options onto the instance, and invokes the rendering
update.

The embedding below translates those operations into pure functions on
explicit state. Three pieces of instrumentation are added so that the
properties become statable: each constructed chart carries a fresh
numeric identity tag (instId, modelling JS object identity), the registry
keeps a log of construction events (constructions), and each chart counts
the number of rendering-driver invocations performed on it (updates,
one per chart.update() call). None of these are observable JS fields;
theorems about "the same registry state" project them away where the
source program would not distinguish the states.
-/

set_option maxRecDepth 10000

namespace StrokeCharts

/-- Font styling entries used inside axis configuration: fontColor and
fontSize, as spread from the fontStyling object in renderCharts. -/
structure ScaleLabel where
  display : Bool
  labelString : String
  fontColor : String
  fontSize : Nat

/-- Tick configuration of an axis. The min and max bounds are optional
because the x axes of percentageLineOptions set neither. -/
structure Ticks where
  min : Option Int
  max : Option Int
  fontColor : String
  fontSize : Nat

/-- One axis entry of a scales configuration. -/
structure Axis where
  scaleLabel : Option ScaleLabel
  ticks : Ticks

/-- Legend configuration. -/
structure Legend where
  display : Bool

/-- Chart.js options object as constructed in renderCharts. The tooltip
label callback of percentageLineOptions is modelled as an actual function
from the y value to the rendered string. -/
structure ChartOptions where
  legend : Legend
  xAxes : List Axis
  yAxes : List Axis
  tooltipLabel : Option (Int → String)

/-- One element of the datasets array handed to Chart.js, including the
spread lineStyles fields. Numeric series values carry no arithmetic in
this component, so they are embedded as integers. -/
structure ChartJsDataset where
  label : String
  data : List Int
  borderColor : String
  backgroundColor : String
  lineTension : Rat
  fill : Bool
deriving DecidableEq

/-- The data object handed to Chart.js: labels plus datasets. -/
structure ChartJsData where
  labels : List String
  datasets : List ChartJsDataset
deriving DecidableEq

/-- Empty Chart.js data, the content of a freshly constructed chart
before the first assignment. -/
def ChartJsData.empty : ChartJsData := { labels := [], datasets := [] }

/-- Built-in Chart.js option defaults of a freshly constructed chart.
Every chart built by updateChart has its options overwritten immediately
after construction, so this value is never observable. -/
def ChartOptions.defaults : ChartOptions :=
  { legend := { display := true }, xAxes := [], yAxes := [], tooltipLabel := none }

/-- Expected structure of data received from the server, translated
field by field from the ChartData interface of the source. -/
structure ChartData where
  months : List String
  total_sites : Int
  ischaemic_stroke : List Int
  ich : List Int
  other : List Int
  lysed_only : List Int
  ecr_only : List Int
  lysed_and_ecr : List Int
  door_to_alert_times : List Int
  door_to_ct_times : List Int
  door_to_lysis_decision_times : List Int
  door_to_ecr_decision_times : List Int
  door_to_needle_times : List (String × Int)
  door_to_needle_median : Int
  discharged_on_correct_meds : List Int
  stroke_unit_access : List Int
  stroke_unit_access_percentage : Int
  nbm_data : List Int
  nbm_percentage : Int
  discharged_on_correct_meds_percentage : Int
deriving DecidableEq

/-- Argument record of updateChart: title, data, options, chartType. -/
structure Descriptor where
  title : String
  chartType : String
  data : ChartJsData
  options : ChartOptions

/-- One chart instance as held in this.charts. The fields data, options
and the type fixed at construction come from the source; instId tags JS
object identity and updates counts chart.update() invocations. -/
structure Chart where
  instId : Nat
  ctype : String
  data : ChartJsData
  options : ChartOptions
  updates : Nat

/-- Registry state: the this.charts dictionary as an association list,
a counter supplying fresh instance identities, and the log of
construction events (slot ids, in order). -/
structure Registry where
  charts : List (String × Chart)
  nextId : Nat
  constructions : List String

/-- Registry of a freshly created component: this.charts starts as an
empty object. -/
def Registry.empty : Registry := { charts := [], nextId := 0, constructions := [] }

/-- Dictionary lookup this.charts[title]. -/
def getChart : List (String × Chart) → String → Option Chart
  | [], _ => none
  | (k, c) :: rest, key => if k = key then some c else getChart rest key

/-- Dictionary write this.charts[title] = chart: replaces the entry in
place when the key is present, otherwise appends a new entry. -/
def setChart : List (String × Chart) → String → Chart → List (String × Chart)
  | [], key, c => [(key, c)]
  | (k, c0) :: rest, key, c =>
      if k = key then (key, c) :: rest else (k, c0) :: setChart rest key c

/-- Assignment tail of updateChart: chart.data = data, chart.options =
options, chart.update(). The updates counter records the rendering
driver invocation. -/
def applyAssign (c : Chart) (d : Descriptor) : Chart :=
  { c with data := d.data, options := d.options, updates := c.updates + 1 }

/-- Chart produced by new Chart(ref, type), before any assignment. -/
def freshChart (n : Nat) (ty : String) : Chart :=
  { instId := n, ctype := ty, data := ChartJsData.empty,
    options := ChartOptions.defaults, updates := 0 }

/-- The reconciliation step updateChart of the source: look up the
registry; when no chart exists, return unchanged unless the container
ref is present, in which case construct and register a fresh chart;
then assign the descriptor data and options and invoke the update.
The refs argument is the container-presence lookup this.$refs. -/
def updateChart (refs : String → Bool) (reg : Registry) (d : Descriptor) : Registry :=
  match getChart reg.charts d.title with
  | some chart =>
      { reg with charts := setChart reg.charts d.title (applyAssign chart d) }
  | none =>
      if refs d.title = true then
        { charts := setChart reg.charts d.title
            (applyAssign (freshChart reg.nextId d.chartType) d)
          nextId := reg.nextId + 1
          constructions := reg.constructions ++ [d.title] }
      else reg

/-- The percentageLineOptions object of renderCharts, translated
literally: hidden legend, white 14pt fonts, a percent y axis clamped to
0..100, and a tooltip callback appending a percent sign. -/
def percentageLineOptions : ChartOptions :=
  { legend := { display := false }
    xAxes := [ { scaleLabel := none
                 ticks := { min := none, max := none, fontColor := "white", fontSize := 14 } } ]
    yAxes := [ { scaleLabel := some { display := true, labelString := "%",
                                      fontColor := "white", fontSize := 14 }
                 ticks := { min := some 0, max := some 100,
                            fontColor := "white", fontSize := 14 } } ]
    tooltipLabel := some (fun y => toString y ++ "%") }

/-- The slot descriptor renderCharts passes to updateChart for the
stroke unit access chart: a line chart over the months labels carrying
the stroke_unit_access series, with the spread lineStyles fields. -/
def strokeUnitAccessDescriptor (d : ChartData) : Descriptor :=
  { title := "strokeUnitAccessChart"
    chartType := "line"
    data := { labels := d.months
              datasets := [ { label := "Percentage"
                              data := d.stroke_unit_access
                              borderColor := "#4472c4"
                              backgroundColor := "#a5a5a5"
                              lineTension := (1 : Rat) / 10
                              fill := false } ] }
    options := percentageLineOptions }

/-- The renderCharts method: returns unchanged when this.data is null,
otherwise reconciles the stroke unit access slot against the snapshot.
The source also constructs bar-chart styling objects (barStyling,
legendSettings, yTicks and an options record) that are not passed to
any updateChart call in this component, so they have no observable
effect and are not embedded. The guard on this.charts in the source can
never fire because this.charts is always an object. -/
def renderCharts (refs : String → Bool) (data : Option ChartData) (reg : Registry) : Registry :=
  match data with
  | none => reg
  | some d => updateChart refs reg (strokeUnitAccessDescriptor d)

/-- Component state relevant to the fetch pipeline: this.data,
this.loading and the registry. The requests counter counts network
requests issued, one per utils.request.get call. -/
structure CompState where
  data : Option ChartData
  loading : Bool
  reg : Registry
  requests : Nat

/-- Outcome of the snapshot fetch: either a response body or a
transport failure. -/
inductive FetchResult where
  | success (body : ChartData)
  | failure

/-- Result of one fetchData invocation: the new component state,
whether the error was delegated to utils.handleRequestError, and
whether renderCharts was invoked. -/
structure FetchOutcome where
  state : CompState
  errorDelegated : Bool
  renderInvoked : Bool

/-- The fetchData method: set loading, issue exactly one request; on
success store the body into this.data, clear loading and invoke
renderCharts; on failure delegate the error to the external handler and
change nothing else (loading stays set because the catch branch never
resets it). -/
def fetchData (refs : String → Bool) (res : FetchResult) (st : CompState) : FetchOutcome :=
  match res with
  | .success body =>
      { state := { data := some body
                   loading := false
                   reg := renderCharts refs (some body) st.reg
                   requests := st.requests + 1 }
        errorDelegated := false
        renderInvoked := true }
  | .failure =>
      { state := { st with loading := true, requests := st.requests + 1 }
        errorDelegated := true
        renderInvoked := false }

/-- The summary line of the template, dynamic part only: the
interpolation of data.stroke_unit_access_percentage followed by the
literal percent sign. -/
def summaryText (d : ChartData) : String :=
  toString d.stroke_unit_access_percentage ++ "%"

/-- Modelled from the spec: the state of the debounce wrapper produced
by the lodash-es debounce import, whose implementation is an external
dependency and not part of this repository. Section 4.2 of the spec
describes the contract: an immediate leading-edge execution when a
burst starts, coalescing of calls inside the cooldown window into one
trailing execution, each new call cancelling and rescheduling the
previously pending trailing execution to the end of its own window.
The state holds the absolute expiry time of the pending timer, the time
of the last call, and whether a call arrived since the last execution
(so that the trailing edge fires only when something was coalesced). -/
structure DState where
  timer : Option Nat
  lastCall : Option Nat
  hasPendingArgs : Bool
deriving DecidableEq

/-- Debounce state before any call. -/
def DState.init : DState := { timer := none, lastCall := none, hasPendingArgs := false }

/-- Modelled from the spec: whether enough silence has passed since the
last call for an execution to be due at time t. -/
def shouldInvoke (wait : Nat) (s : DState) (t : Nat) : Bool :=
  match s.lastCall with
  | none => true
  | some lc => decide (wait ≤ t - lc)

/-- Modelled from the spec: one call to the debounced function at time
t with leading execution enabled. Returns the new state and whether the
wrapped function executes now (the leading edge). A call during the
cooldown window only records itself for the trailing execution. -/
def debounceCall (wait : Nat) (s : DState) (t : Nat) : DState × Bool :=
  if shouldInvoke wait s t && s.timer.isNone then
    ({ timer := some (t + wait), lastCall := some t, hasPendingArgs := false }, true)
  else if s.timer.isNone then
    ({ timer := some (t + wait), lastCall := some t, hasPendingArgs := true }, false)
  else
    ({ timer := s.timer, lastCall := some t, hasPendingArgs := true }, false)

/-- Modelled from the spec: expiry of the pending timer at time t. When
a full cooldown window has passed since the last call, the trailing
edge fires, executing the wrapped function exactly when a call was
coalesced; otherwise the timer is rescheduled to the end of the window
of the last call, cancelling the previous pending execution. -/
def timerFire (wait : Nat) (s : DState) (t : Nat) : DState × Bool :=
  if shouldInvoke wait s t then
    ({ timer := none, lastCall := s.lastCall, hasPendingArgs := false }, s.hasPendingArgs)
  else
    ({ timer := some (s.lastCall.getD t + wait), lastCall := s.lastCall,
       hasPendingArgs := s.hasPendingArgs }, false)

/-- Modelled from the spec: discrete-event run of the debounce wrapper,
standing in for the platform timer queue. The pending events are the
remaining calls (an ascending list of call times) and the pending timer
expiry; each step processes the earliest one, a call taking priority on
a tie because it was enqueued first. Executions of the wrapped function
are recorded with their times. Fuel bounds the number of processed
events; the run ends when no call and no timer remains. -/
def debounceSim (wait : Nat) : Nat → List Nat → DState → List Nat → List Nat
  | 0, _, _, acc => acc
  | fuel + 1, calls, s, acc =>
    match calls, s.timer with
    | [], none => acc
    | [], some e =>
        debounceSim wait fuel []
          (timerFire wait s e).1
          (if (timerFire wait s e).2 then acc ++ [e] else acc)
    | t :: rest, none =>
        debounceSim wait fuel rest
          (debounceCall wait s t).1
          (if (debounceCall wait s t).2 then acc ++ [t] else acc)
    | t :: rest, some e =>
        if t ≤ e then
          debounceSim wait fuel rest
            (debounceCall wait s t).1
            (if (debounceCall wait s t).2 then acc ++ [t] else acc)
        else
          debounceSim wait fuel (t :: rest)
            (timerFire wait s e).1
            (if (timerFire wait s e).2 then acc ++ [e] else acc)

/-- Complete execution times of the wrapped function for a burst of
calls at the given ascending times, starting from the untouched
wrapper. The fuel suffices because every call is processed once and
every processed call can cause at most one extra timer rescheduling. -/
def debounceRun (wait : Nat) (calls : List Nat) : List Nat :=
  debounceSim wait (2 * calls.length + 2) calls DState.init []

/-- Whole-component state: the fetch pipeline state together with the
state of the debounced wrapper debouncedFetchData. -/
structure AppState where
  comp : CompState
  dstate : DState

/-- The created lifecycle hook of the source: it invokes this.fetchData
directly, without going through the debounced wrapper, so the debounce
state is untouched. -/
def createdHook (refs : String → Bool) (res : FetchResult) (st : AppState) : AppState :=
  { st with comp := (fetchData refs res st.comp).state }

/-- One invocation of debouncedFetchData at time t: the source builds
this computed property as debounce(this.fetchData, 1000, leading true),
so a call runs the debounce step with a 1000ms window and executes
fetchData exactly when the wrapper lets the call through. -/
def debouncedFetchStep (refs : String → Bool) (res : FetchResult) (t : Nat)
    (st : AppState) : AppState :=
  { comp := if (debounceCall 1000 st.dstate t).2 then (fetchData refs res st.comp).state
            else st.comp
    dstate := (debounceCall 1000 st.dstate t).1 }

/-- Modelled from the spec: the control flow claimed in the spec, in
which the initial load on component creation invokes the pipeline
through the debounced wrapper (at time 0) rather than calling fetchData
directly. This definition exists to be compared with createdHook, the
behaviour of the source. -/
def createdViaDebounceSpec (refs : String → Bool) (res : FetchResult) (st : AppState) :
    AppState :=
  debouncedFetchStep refs res 0 st

/-- Container-presence lookup in which every slot has a backing ref. -/
def refsAll : String → Bool := fun _ => true

/-- Container-presence lookup in which no slot has a backing ref. -/
def refsNone : String → Bool := fun _ => false

/-- The snapshot of the end-to-end scenario: months Jan and Feb, stroke
unit access series 80 and 90, and a year-to-date percentage of 85. All
fields not constrained by the scenario are empty or zero. -/
def sampleData : ChartData :=
  { months := ["Jan", "Feb"]
    total_sites := 0
    ischaemic_stroke := []
    ich := []
    other := []
    lysed_only := []
    ecr_only := []
    lysed_and_ecr := []
    door_to_alert_times := []
    door_to_ct_times := []
    door_to_lysis_decision_times := []
    door_to_ecr_decision_times := []
    door_to_needle_times := []
    door_to_needle_median := 0
    discharged_on_correct_meds := []
    stroke_unit_access := [80, 90]
    stroke_unit_access_percentage := 85
    nbm_data := []
    nbm_percentage := 0
    discharged_on_correct_meds_percentage := 0 }

/-- A chart instance of kind line already registered for the stroke
unit access slot, as it would exist after an earlier reconciliation. -/
def chartLine : Chart :=
  { instId := 0, ctype := "line", data := ChartJsData.empty,
    options := ChartOptions.defaults, updates := 3 }

/-- A registry already holding the line chart for the stroke unit
access slot. -/
def regWithEntry : Registry :=
  { charts := [("strokeUnitAccessChart", chartLine)]
    nextId := 1
    constructions := ["strokeUnitAccessChart"] }

/-- A descriptor for the stroke unit access slot whose chart kind
differs from the kind the registered instance was created with. -/
def barDescriptor : Descriptor :=
  { title := "strokeUnitAccessChart"
    chartType := "bar"
    data := (strokeUnitAccessDescriptor sampleData).data
    options := percentageLineOptions }

/-- Component state of a freshly created component. -/
def initComp : CompState :=
  { data := none, loading := false, reg := Registry.empty, requests := 0 }

/-- Whole-component state of a freshly created component. -/
def initApp : AppState := { comp := initComp, dstate := DState.init }

/-- Projection of a chart instance onto the fields the JS program can
observe on the registry: identity, kind, data and options. The updates
counter is simulation instrumentation counting rendering invocations
and is projected away. -/
structure ChartObs where
  instId : Nat
  ctype : String
  data : ChartJsData
  options : ChartOptions

/-- Observable part of one chart. -/
def Chart.obs (c : Chart) : ChartObs :=
  { instId := c.instId, ctype := c.ctype, data := c.data, options := c.options }

/-- Observable part of the whole registry dictionary. -/
def obsCharts (l : List (String × Chart)) : List (String × ChartObs) :=
  l.map (fun p => (p.1, p.2.obs))

/-- Number of construction events recorded for a slot id. -/
def countConstructions (t : String) (r : Registry) : Nat :=
  r.constructions.count t

/-- Looking up a key right after writing it yields the written chart. -/
theorem getChart_setChart_self (l : List (String × Chart)) (k : String) (c : Chart) :
    getChart (setChart l k c) k = some c := by
  induction l with
  | nil => simp [setChart, getChart]
  | cons p rest ih =>
    obtain ⟨k0, c0⟩ := p
    by_cases hk : k0 = k <;> simp [setChart, getChart, hk, ih]

/-- Writing the same key twice keeps only the second write. -/
theorem setChart_setChart (l : List (String × Chart)) (k : String) (c c' : Chart) :
    setChart (setChart l k c) k c' = setChart l k c' := by
  induction l with
  | nil => simp [setChart]
  | cons p rest ih =>
    obtain ⟨k0, c0⟩ := p
    by_cases hk : k0 = k <;> simp [setChart, hk, ih]

/-- Writing a key that is present leaves the key list unchanged. -/
theorem setChart_keys_some (l : List (String × Chart)) (k : String) (c : Chart)
    (h : getChart l k ≠ none) :
    (setChart l k c).map Prod.fst = l.map Prod.fst := by
  induction l with
  | nil => simp [getChart] at h
  | cons p rest ih =>
    obtain ⟨k0, c0⟩ := p
    by_cases hk : k0 = k
    · simp [setChart, hk]
    · have h' : getChart rest k ≠ none := by simpa [getChart, hk] using h
      simp [setChart, hk, ih h']

/-- Writing a key that is absent appends it to the key list. -/
theorem setChart_keys_none (l : List (String × Chart)) (k : String) (c : Chart)
    (h : getChart l k = none) :
    (setChart l k c).map Prod.fst = l.map Prod.fst ++ [k] := by
  induction l with
  | nil => simp [setChart]
  | cons p rest ih =>
    obtain ⟨k0, c0⟩ := p
    by_cases hk : k0 = k
    · simp [getChart, hk] at h
    · have h' : getChart rest k = none := by simpa [getChart, hk] using h
      simp [setChart, hk, ih h']

/-- A key with no entry does not occur in the key list. -/
theorem getChart_none_not_mem (l : List (String × Chart)) (k : String)
    (h : getChart l k = none) : k ∉ l.map Prod.fst := by
  induction l with
  | nil => simp
  | cons p rest ih =>
    obtain ⟨k0, c0⟩ := p
    by_cases hk : k0 = k
    · simp [getChart, hk] at h
    · have h' : getChart rest k = none := by simpa [getChart, hk] using h
      simp only [List.map_cons, List.mem_cons]
      rintro (rfl | hm)
      · exact hk rfl
      · exact ih h' hm

/-- Observable registry content ignores which of two observably equal
charts is written. -/
theorem obsCharts_setChart_congr (l : List (String × Chart)) (k : String) (c c' : Chart)
    (h : c.obs = c'.obs) :
    obsCharts (setChart l k c) = obsCharts (setChart l k c') := by
  induction l with
  | nil => simp [setChart, obsCharts, h]
  | cons p rest ih =>
    obtain ⟨k0, c0⟩ := p
    by_cases hk : k0 = k
    · simp [setChart, obsCharts, hk, h]
    · simpa [setChart, obsCharts, hk] using ih

/-- Behaviour of updateChart when an instance is registered for the
slot: the existing instance is updated in place. -/
theorem updateChart_of_some (refs : String → Bool) (reg : Registry) (d : Descriptor)
    (c : Chart) (h : getChart reg.charts d.title = some c) :
    updateChart refs reg d =
      { reg with charts := setChart reg.charts d.title (applyAssign c d) } := by
  unfold updateChart
  rw [h]

/-- Behaviour of updateChart when no instance is registered and the
container is present: a fresh chart is constructed, registered, updated
in place, and the construction is logged. -/
theorem updateChart_of_none_present (refs : String → Bool) (reg : Registry)
    (d : Descriptor) (h : getChart reg.charts d.title = none)
    (hr : refs d.title = true) :
    updateChart refs reg d =
      { charts := setChart reg.charts d.title
          (applyAssign (freshChart reg.nextId d.chartType) d)
        nextId := reg.nextId + 1
        constructions := reg.constructions ++ [d.title] } := by
  unfold updateChart
  rw [h]
  simp [hr]

/-- Behaviour of updateChart when no instance is registered and the
container is absent: nothing happens. -/
theorem updateChart_of_none_absent (refs : String → Bool) (reg : Registry)
    (d : Descriptor) (h : getChart reg.charts d.title = none)
    (hr : refs d.title = false) :
    updateChart refs reg d = reg := by
  unfold updateChart
  rw [h]
  simp [hr]

/-- A reconciliation step preserves distinctness of the registry keys,
so the registry keeps at most one instance per slot id. -/
theorem updateChart_keys_nodup (refs : String → Bool) (reg : Registry) (d : Descriptor)
    (h : (reg.charts.map Prod.fst).Nodup) :
    ((updateChart refs reg d).charts.map Prod.fst).Nodup := by
  cases hg : getChart reg.charts d.title with
  | some c =>
    rw [updateChart_of_some refs reg d c hg]
    show ((setChart reg.charts d.title (applyAssign c d)).map Prod.fst).Nodup
    rw [setChart_keys_some _ _ _ (by simp [hg])]
    exact h
  | none =>
    cases hr : refs d.title with
    | false =>
      rw [updateChart_of_none_absent refs reg d hg hr]
      exact h
    | true =>
      rw [updateChart_of_none_present refs reg d hg hr]
      show ((setChart reg.charts d.title _).map Prod.fst).Nodup
      rw [setChart_keys_none _ _ _ hg]
      refine List.nodup_append.2 ⟨h, List.nodup_singleton _, ?_⟩
      intro a ha hb
      rw [List.mem_singleton] at hb
      subst hb
      exact getChart_none_not_mem _ _ hg ha

/-- Folding reconciliation steps for one slot over a registry that
already holds an instance for that slot preserves the instance identity
and kind and performs no construction. -/
theorem fold_preserve (refs : String → Bool) (t : String) (ds : List Descriptor) :
    ∀ (reg : Registry) (c : Chart),
      (∀ d ∈ ds, d.title = t) →
      getChart reg.charts t = some c →
      ∃ c', getChart ((ds.foldl (updateChart refs) reg)).charts t = some c' ∧
        c'.instId = c.instId ∧ c'.ctype = c.ctype ∧
        (ds.foldl (updateChart refs) reg).constructions = reg.constructions ∧
        (ds.foldl (updateChart refs) reg).nextId = reg.nextId := by
  induction ds with
  | nil =>
    intro reg c _ hc
    exact ⟨c, hc, rfl, rfl, rfl, rfl⟩
  | cons d rest ih =>
    intro reg c hds hc
    simp only [List.foldl_cons]
    have hd : d.title = t := hds d (List.mem_cons_self _ _)
    have hc' : getChart reg.charts d.title = some c := by rw [hd]; exact hc
    have hstep := updateChart_of_some refs reg d c hc'
    have hget : getChart (updateChart refs reg d).charts t = some (applyAssign c d) := by
      rw [hstep]
      show getChart (setChart reg.charts d.title (applyAssign c d)) t = _
      rw [hd]
      exact getChart_setChart_self _ _ _
    obtain ⟨c', h1, h2, h3, h4, h5⟩ := ih (updateChart refs reg d) (applyAssign c d)
      (fun d' hd' => hds d' (List.mem_cons_of_mem _ hd')) hget
    exact ⟨c', h1, by rw [h2]; rfl, by rw [h3]; rfl,
      by rw [h4, hstep], by rw [h5, hstep]⟩

/-- Reconciling the same descriptor twice leaves the observable
registry state of the first reconciliation unchanged: same entries,
same instance identities, same data and options, no construction and no
fresh identity consumed. -/
theorem updateChart_obs_idem (refs : String → Bool) (reg : Registry) (d : Descriptor) :
    obsCharts (updateChart refs (updateChart refs reg d) d).charts
        = obsCharts (updateChart refs reg d).charts ∧
    (updateChart refs (updateChart refs reg d) d).nextId
        = (updateChart refs reg d).nextId ∧
    (updateChart refs (updateChart refs reg d) d).constructions
        = (updateChart refs reg d).constructions := by
  cases hg : getChart reg.charts d.title with
  | some c =>
    have h1 := updateChart_of_some refs reg d c hg
    have hget : getChart (updateChart refs reg d).charts d.title
        = some (applyAssign c d) := by
      rw [h1]
      exact getChart_setChart_self _ _ _
    have h2 := updateChart_of_some refs (updateChart refs reg d) d (applyAssign c d) hget
    rw [h2, h1]
    refine ⟨?_, rfl, rfl⟩
    show obsCharts (setChart (setChart reg.charts d.title (applyAssign c d)) d.title
        (applyAssign (applyAssign c d) d)) = _
    rw [setChart_setChart]
    exact obsCharts_setChart_congr _ _ _ _ rfl
  | none =>
    cases hr : refs d.title with
    | false =>
      have h1 := updateChart_of_none_absent refs reg d hg hr
      rw [h1, h1]
      exact ⟨rfl, rfl, rfl⟩
    | true =>
      have h1 := updateChart_of_none_present refs reg d hg hr
      have hget : getChart (updateChart refs reg d).charts d.title
          = some (applyAssign (freshChart reg.nextId d.chartType) d) := by
        rw [h1]
        exact getChart_setChart_self _ _ _
      have h2 := updateChart_of_some refs (updateChart refs reg d) d _ hget
      rw [h2, h1]
      refine ⟨?_, rfl, rfl⟩
      show obsCharts (setChart (setChart reg.charts d.title
          (applyAssign (freshChart reg.nextId d.chartType) d)) d.title
          (applyAssign (applyAssign (freshChart reg.nextId d.chartType) d) d)) = _
      rw [setChart_setChart]
      exact obsCharts_setChart_congr _ _ _ _ rfl

/-- Claim C1, counterexample. A slot whose container is absent is not
left untouched when the registry already holds an instance for it: the
presence check of the source runs only in the creation branch, so
reconciling the stroke unit access descriptor against a registry that
already holds the line chart, with every container absent, still
replaces the data of the entry and invokes its rendering update. -/
theorem C1_counterexample :
    (getChart (updateChart refsNone regWithEntry
        (strokeUnitAccessDescriptor sampleData)).charts
        "strokeUnitAccessChart").map Chart.data
      ≠ (getChart regWithEntry.charts "strokeUnitAccessChart").map Chart.data ∧
    (getChart (updateChart refsNone regWithEntry
        (strokeUnitAccessDescriptor sampleData)).charts
        "strokeUnitAccessChart").map Chart.updates = some 4 ∧
    refsNone "strokeUnitAccessChart" = false :=
  ⟨by decide, by decide, rfl⟩

/-- Claim C1, amended: if the container for a slot id is absent at
reconciliation time and the registry holds no entry for that id, then
reconciling a descriptor for that slot leaves the registry completely
unchanged; the presence check only guards creation, so an
already-registered slot is updated regardless of container presence. -/
theorem C1_absent_skip (refs : String → Bool) (reg : Registry) (d : Descriptor)
    (hr : refs d.title = false) (h0 : getChart reg.charts d.title = none) :
    updateChart refs reg d = reg :=
  updateChart_of_none_absent refs reg d h0 hr

/-- Witness for C1_absent_skip at the empty registry with every
container absent. -/
theorem C1_absent_skip_witness :
    refsNone (strokeUnitAccessDescriptor sampleData).title = false ∧
    getChart Registry.empty.charts (strokeUnitAccessDescriptor sampleData).title = none ∧
    updateChart refsNone Registry.empty (strokeUnitAccessDescriptor sampleData)
      = Registry.empty :=
  ⟨rfl, rfl, C1_absent_skip refsNone Registry.empty
    (strokeUnitAccessDescriptor sampleData) rfl rfl⟩

/-- Claim C2: for a slot whose container is present across N successive
reconciliations that all start once no entry exists for it, exactly one
chart is ever constructed for that slot id (the construction log for the
id grows by exactly one), the instance finally registered is the one
created by the first reconciliation (its identity is the fresh identity
available at the start), and every reconciliation step preserves
distinctness of registry keys, so the registry holds at most one
instance per slot id at every point in time. -/
theorem C2_create_once (refs : String → Bool) (t : String) (ds : List Descriptor)
    (reg : Registry)
    (hp : refs t = true)
    (hds : ∀ d ∈ ds, d.title = t)
    (h0 : getChart reg.charts t = none)
    (hlen : 0 < ds.length) :
    countConstructions t (ds.foldl (updateChart refs) reg)
      = countConstructions t reg + 1 ∧
    (∃ c, getChart (ds.foldl (updateChart refs) reg).charts t = some c ∧
      c.instId = reg.nextId) ∧
    (∀ (reg₀ : Registry) (d₀ : Descriptor),
      (reg₀.charts.map Prod.fst).Nodup →
        ((updateChart refs reg₀ d₀).charts.map Prod.fst).Nodup) := by
  rcases ds with _ | ⟨d, rest⟩
  · simp at hlen
  · have hd : d.title = t := hds d (List.mem_cons_self _ _)
    have h0' : getChart reg.charts d.title = none := by rw [hd]; exact h0
    have hp' : refs d.title = true := by rw [hd]; exact hp
    have hstep := updateChart_of_none_present refs reg d h0' hp'
    simp only [List.foldl_cons]
    have hget : getChart (updateChart refs reg d).charts t
        = some (applyAssign (freshChart reg.nextId d.chartType) d) := by
      rw [hstep]
      show getChart (setChart reg.charts d.title
        (applyAssign (freshChart reg.nextId d.chartType) d)) t = _
      rw [hd]
      exact getChart_setChart_self _ _ _
    obtain ⟨c', h1, h2, _h3, h4, _h5⟩ := fold_preserve refs t rest
      (updateChart refs reg d)
      (applyAssign (freshChart reg.nextId d.chartType) d)
      (fun d' hd' => hds d' (List.mem_cons_of_mem _ hd')) hget
    refine ⟨?_, ⟨c', h1, by rw [h2]; rfl⟩,
      fun reg₀ d₀ h => updateChart_keys_nodup refs reg₀ d₀ h⟩
    simp only [countConstructions]
    rw [h4, hstep]
    show (reg.constructions ++ [d.title]).count t = _
    rw [hd]
    simp [List.count_append]

/-- Witness for C2_create_once: two successive reconciliations of the
stroke unit access slot starting from the empty registry. -/
theorem C2_create_once_witness :
    refsAll "strokeUnitAccessChart" = true ∧
    (∀ d ∈ [strokeUnitAccessDescriptor sampleData, strokeUnitAccessDescriptor sampleData],
      d.title = "strokeUnitAccessChart") ∧
    getChart Registry.empty.charts "strokeUnitAccessChart" = none ∧
    0 < ([strokeUnitAccessDescriptor sampleData,
          strokeUnitAccessDescriptor sampleData] : List Descriptor).length ∧
    (countConstructions "strokeUnitAccessChart"
        ([strokeUnitAccessDescriptor sampleData,
          strokeUnitAccessDescriptor sampleData].foldl (updateChart refsAll) Registry.empty)
      = countConstructions "strokeUnitAccessChart" Registry.empty + 1 ∧
    (∃ c, getChart ([strokeUnitAccessDescriptor sampleData,
          strokeUnitAccessDescriptor sampleData].foldl
            (updateChart refsAll) Registry.empty).charts "strokeUnitAccessChart" = some c ∧
      c.instId = Registry.empty.nextId) ∧
    (∀ (reg₀ : Registry) (d₀ : Descriptor),
      (reg₀.charts.map Prod.fst).Nodup →
        ((updateChart refsAll reg₀ d₀).charts.map Prod.fst).Nodup)) :=
  ⟨rfl, by decide, rfl, by decide,
    C2_create_once refsAll "strokeUnitAccessChart"
      [strokeUnitAccessDescriptor sampleData, strokeUnitAccessDescriptor sampleData]
      Registry.empty rfl (by decide) rfl (by decide)⟩

/-- Claim C3: reconciling the identical snapshot twice in succession
yields the same observable registry and instance state as reconciling
it once: the entries, their instance identities, their data and their
options are unchanged by the second call, no construction happens and
no fresh identity is consumed. -/
theorem C3_idempotent (refs : String → Bool) (d : ChartData) (reg : Registry) :
    obsCharts (renderCharts refs (some d) (renderCharts refs (some d) reg)).charts
        = obsCharts (renderCharts refs (some d) reg).charts ∧
    (renderCharts refs (some d) (renderCharts refs (some d) reg)).nextId
        = (renderCharts refs (some d) reg).nextId ∧
    (renderCharts refs (some d) (renderCharts refs (some d) reg)).constructions
        = (renderCharts refs (some d) reg).constructions :=
  updateChart_obs_idem refs reg (strokeUnitAccessDescriptor d)

/-- Claim C4: when the snapshot fetch fails, the error is delegated to
the external handler, renderCharts is not invoked, this.data keeps its
previous value, the whole registry (instances, data, options, update
counts) is untouched, and exactly one request was issued, so the fetch
is not retried. -/
theorem C4_fetch_failure (refs : String → Bool) (st : CompState) :
    (fetchData refs .failure st).errorDelegated = true ∧
    (fetchData refs .failure st).renderInvoked = false ∧
    (fetchData refs .failure st).state.data = st.data ∧
    (fetchData refs .failure st).state.reg = st.reg ∧
    (fetchData refs .failure st).state.requests = st.requests + 1 :=
  ⟨rfl, rfl, rfl, rfl, rfl⟩

/-- Claim C5, counterexample. For calls at 0, 100 and 300 with a 1000ms
window and leading execution, the wrapped function does not execute at
t=1000: the trailing execution is rescheduled by each coalesced call to
the end of its own window, so the complete run executes at 0 and at
1300 only. -/
theorem C5_counterexample :
    (1000 : Nat) ∉ debounceRun 1000 [0, 100, 300] ∧
    debounceRun 1000 [0, 100, 300] = [0, 1300] :=
  ⟨by decide, by decide⟩

/-- Claim C5, amended: given calls at t=0, t=100 and t=300 within a
1000ms window with leading execution, the wrapped function executes at
t=0 (leading edge) and exactly once more at t=1300, one full window
after the last call of the burst (trailing edge); it never executes at
t=100, t=300 or t=1000, and never more than twice in total for that
burst. -/
theorem C5_amended :
    debounceRun 1000 [0, 100, 300] = [0, 1300] ∧
    (0 : Nat) ∈ debounceRun 1000 [0, 100, 300] ∧
    (100 : Nat) ∉ debounceRun 1000 [0, 100, 300] ∧
    (300 : Nat) ∉ debounceRun 1000 [0, 100, 300] ∧
    (1000 : Nat) ∉ debounceRun 1000 [0, 100, 300] ∧
    (debounceRun 1000 [0, 100, 300]).length = 2 :=
  ⟨by decide, by decide, by decide, by decide, by decide, by decide⟩

/-- Claim C6, counterexample. The initial load does not go through the
debounced wrapper: createdHook leaves the debounce state untouched
(no cooldown starts), whereas the control flow claimed in the spec
starts the cooldown window. The difference is observable: a further
trigger through the wrapper 100ms after creation issues a second
network request under the behaviour of the source, while under the
claimed control flow it would be coalesced and issue none. -/
theorem C6_counterexample :
    (createdHook refsAll .failure initApp).dstate.timer = none ∧
    (createdViaDebounceSpec refsAll .failure initApp).dstate.timer = some 1000 ∧
    (debouncedFetchStep refsAll .failure 100
        (createdHook refsAll .failure initApp)).comp.requests = 2 ∧
    (debouncedFetchStep refsAll .failure 100
        (createdViaDebounceSpec refsAll .failure initApp)).comp.requests = 1 :=
  ⟨rfl, rfl, rfl, rfl⟩

/-- Claim C6, amended: the initial load on component creation invokes
the pipeline by calling fetchData directly, bypassing the debounced
wrapper and leaving the debounce state untouched; the debounced wrapper
exists for other external triggers and wraps the same pipeline, which
calls the snapshot fetcher and, on success only, the reconciler. -/
theorem C6_created_direct (refs : String → Bool) (res : FetchResult) (st : AppState)
    (stc : CompState) (body : ChartData) :
    createdHook refs res st = { st with comp := (fetchData refs res st.comp).state } ∧
    (createdHook refs res st).dstate = st.dstate ∧
    (fetchData refs (.success body) stc).renderInvoked = true ∧
    (fetchData refs .failure stc).renderInvoked = false :=
  ⟨rfl, rfl, rfl, rfl⟩

/-- Claim C7: reconciling a slot that already holds a registered
instance reuses that instance: its identity and its chart kind fixed at
construction are unchanged, only its data and options are assigned from
the descriptor, and no construction is logged. This holds whatever
chart kind the descriptor carries. -/
theorem C7_kind_immutable (refs : String → Bool) (reg : Registry) (d : Descriptor)
    (c : Chart) (h : getChart reg.charts d.title = some c) :
    ∃ c', getChart (updateChart refs reg d).charts d.title = some c' ∧
      c'.ctype = c.ctype ∧ c'.instId = c.instId ∧
      c'.data = d.data ∧ c'.options = d.options ∧
      (updateChart refs reg d).constructions = reg.constructions := by
  rw [updateChart_of_some refs reg d c h]
  exact ⟨applyAssign c d,
    (by
      show getChart (setChart reg.charts d.title (applyAssign c d)) d.title = _
      exact getChart_setChart_self _ _ _),
    rfl, rfl, rfl, rfl, rfl⟩

/-- Witness for C7_kind_immutable: a registered line chart reconciled
against a descriptor demanding kind bar keeps its kind line. -/
theorem C7_kind_immutable_witness :
    getChart regWithEntry.charts barDescriptor.title = some chartLine ∧
    barDescriptor.chartType ≠ chartLine.ctype ∧
    (∃ c', getChart (updateChart refsAll regWithEntry barDescriptor).charts
        barDescriptor.title = some c' ∧
      c'.ctype = chartLine.ctype ∧ c'.instId = chartLine.instId ∧
      c'.data = barDescriptor.data ∧ c'.options = barDescriptor.options ∧
      (updateChart refsAll regWithEntry barDescriptor).constructions
        = regWithEntry.constructions) :=
  ⟨rfl, by decide,
    C7_kind_immutable refsAll regWithEntry barDescriptor chartLine rfl⟩

/-- Claim C8: for every slot processed past the presence and registry
checks (an instance exists, or none exists and the container is
present), the chart finally registered holds exactly the data and
options of the descriptor, as full replacement with no merging of prior
fields, and the rendering update was invoked on it synchronously (its
update count grew by one, from its previous value or from zero at
construction). -/
theorem C8_full_replace (refs : String → Bool) (reg : Registry) (d : Descriptor)
    (h : (getChart reg.charts d.title).isSome = true ∨ refs d.title = true) :
    ∃ c', getChart (updateChart refs reg d).charts d.title = some c' ∧
      c'.data = d.data ∧ c'.options = d.options ∧
      c'.updates = (match getChart reg.charts d.title with
                    | some c0 => c0.updates + 1
                    | none => 1) := by
  cases hg : getChart reg.charts d.title with
  | some c =>
    rw [updateChart_of_some refs reg d c hg]
    exact ⟨applyAssign c d,
      (by
        show getChart (setChart reg.charts d.title (applyAssign c d)) d.title = _
        exact getChart_setChart_self _ _ _),
      rfl, rfl, rfl⟩
  | none =>
    have hr : refs d.title = true := by
      rcases h with h | h
      · rw [hg] at h
        simp at h
      · exact h
    rw [updateChart_of_none_present refs reg d hg hr]
    exact ⟨applyAssign (freshChart reg.nextId d.chartType) d,
      (by
        show getChart (setChart reg.charts d.title
          (applyAssign (freshChart reg.nextId d.chartType) d)) d.title = _
        exact getChart_setChart_self _ _ _),
      rfl, rfl, rfl⟩

/-- Witness for C8_full_replace: reconciling the stroke unit access
descriptor against the empty registry with its container present. -/
theorem C8_full_replace_witness :
    ((getChart Registry.empty.charts (strokeUnitAccessDescriptor sampleData).title).isSome
        = true ∨
      refsAll (strokeUnitAccessDescriptor sampleData).title = true) ∧
    (∃ c', getChart (updateChart refsAll Registry.empty
        (strokeUnitAccessDescriptor sampleData)).charts
        (strokeUnitAccessDescriptor sampleData).title = some c' ∧
      c'.data = (strokeUnitAccessDescriptor sampleData).data ∧
      c'.options = (strokeUnitAccessDescriptor sampleData).options ∧
      c'.updates = (match getChart Registry.empty.charts
                      (strokeUnitAccessDescriptor sampleData).title with
                    | some c0 => c0.updates + 1
                    | none => 1)) :=
  ⟨Or.inr rfl,
    C8_full_replace refsAll Registry.empty (strokeUnitAccessDescriptor sampleData)
      (Or.inr rfl)⟩

/-- Claim C9: for the snapshot with months Jan and Feb, stroke unit
access series 80 and 90 and percentage 85, reconciling one descriptor
for the stroke unit access slot with its container present, starting
from the empty registry, leaves the registry with exactly one entry,
for that slot id, whose data carries labels Jan and Feb and the single
series 80, 90; and the summary text rendered from the snapshot is
85%. -/
theorem C9_end_to_end :
    (renderCharts refsAll (some sampleData) Registry.empty).charts.map Prod.fst
      = ["strokeUnitAccessChart"] ∧
    (∃ c, getChart (renderCharts refsAll (some sampleData) Registry.empty).charts
        "strokeUnitAccessChart" = some c ∧
      c.data.labels = ["Jan", "Feb"] ∧
      c.data.datasets.map ChartJsDataset.data = [[80, 90]]) ∧
    summaryText sampleData = "85%" :=
  ⟨by decide, ⟨_, rfl, rfl, rfl⟩, by decide⟩

/-- Claim C10: fetchData drives the loading flag so that a failed fetch
leaves it set: after a failure the flag is true whatever it was before
(it is set at the start of the invocation and the failure handler never
resets it), while a success resets it to false. -/
theorem C10_loading_stuck (refs : String → Bool) (st : CompState) (body : ChartData) :
    (fetchData refs .failure st).state.loading = true ∧
    (fetchData refs (.success body) st).state.loading = false :=
  ⟨rfl, rfl⟩

end StrokeCharts
